import Mathlib

/-!
# Verification of the Gemini document service core
(`src/gemini-python-service/app/services.py`, `app/schemas.py`)

Shallow embedding of the resilient structured-output recovery engine:
the prioritized model orchestrator, the tiered response extractor, the
field normalizer, the identifier validator and the result assemblers of
the four service operations.  Library collaborators (`json.loads` on
arbitrary strings, the `re` searches whose groups are opaque to the
caller) are modelled as oracle fields carried by the raw model response;
everything the service itself computes (keyword scans, brace extraction,
synonym normalization, confidence coercion, validation, assembly,
candidate fallback) is translated directly from the source.
-/

namespace GeminiSvc

/-- ASCII lowercasing (Python `str.lower()` on the service's ASCII data),
character by character. -/
def strToLower (s : String) : String :=
  String.mk (s.toList.map Char.toLower)

/-- Whitespace stripping (Python `str.strip()` / `float`'s leading-trailing
whitespace tolerance). -/
def strTrim (s : String) : String :=
  String.mk ((((s.toList.dropWhile Char.isWhitespace).reverse).dropWhile
    Char.isWhitespace).reverse)

/-- Python `sep.join(xs)`. -/
def joinSep (sep : String) : List String → String
  | [] => ""
  | x :: rest => rest.foldl (fun a b => a ++ sep ++ b) x

/-- Does `hay` start with `pat`? -/
def startsWithChars : List Char → List Char → Bool
  | [], _ => true
  | _ :: _, [] => false
  | p :: ps, h :: hs => p == h && startsWithChars ps hs

/-- Does `hay` contain `pat` as a contiguous run? -/
def containsChars (pat hay : List Char) : Bool :=
  match hay with
  | [] => pat.isEmpty
  | _ :: rest => startsWithChars pat hay || containsChars pat rest

/-- Substring containment test (Python's `needle in haystack` on `str`). -/
def strContains (haystack needle : String) : Bool :=
  containsChars needle.toList haystack.toList

/-- JSON-like values, the result space of `json.loads`. -/
inductive JVal where
  | null : JVal
  | jbool : Bool → JVal
  | num : ℚ → JVal
  | str : String → JVal
  | arr : List JVal → JVal
  | obj : List (String × JVal) → JVal

/-- Python dict lookup on a decoded JSON object. -/
def lookupJ (fs : List (String × JVal)) (k : String) : Option JVal :=
  (fs.find? (fun p => p.1 == k)).map Prod.snd

/-- Python truthiness of a decoded JSON value. -/
def jTruthy : JVal → Bool
  | .null => false
  | .jbool b => b
  | .num q => q != 0
  | .str s => s != ""
  | .arr xs => !xs.isEmpty
  | .obj fs => !fs.isEmpty

/-- Python `str()` on a decoded JSON value, as used inside f-strings.
The numeric and container renderings approximate CPython's (the service
only ever interpolates these into free-text reasoning messages). -/
def jToStr : JVal → String
  | .null => "None"
  | .jbool b => if b then "True" else "False"
  | .num q => toString q
  | .str s => s
  | .arr _ => "[...]"
  | .obj _ => "\x7b...\x7d"

/-- Digits of a numeral to a natural number. -/
def digitsToNat (cs : List Char) : Nat :=
  cs.foldl (fun a c => a * 10 + (c.toNat - 48)) 0

/-- Split a character list at every `'.'`. -/
def splitOnDot : List Char → List (List Char)
  | [] => [[]]
  | c :: rest =>
    let r := splitOnDot rest
    if c == '.' then [] :: r
    else
      match r with
      | h :: t => (c :: h) :: t
      | [] => [[c]]

/-- Model of Python `float(s)` on a string: optional whitespace and sign,
then digits with at most one decimal point and at least one digit (the
fragment of CPython's grammar exercised by the service; `float` raises —
here `none` — on anything else, e.g. `"abc"`). -/
def parseFloat (s : String) : Option ℚ :=
  let cs := (strTrim s).toList
  let signAndRest : ℚ × List Char :=
    match cs with
    | '-' :: rest => (-1, rest)
    | '+' :: rest => (1, rest)
    | _ => (1, cs)
  let sign := signAndRest.1
  let body := signAndRest.2
  if body.isEmpty then none
  else if !body.all (fun c => c.isDigit || c == '.') then none
  else
    match splitOnDot body with
    | [ip] => some (sign * digitsToNat ip)
    | [ip, fp] =>
        if ip.isEmpty && fp.isEmpty then none
        else some (sign * ((digitsToNat ip : ℚ) + (digitsToNat fp : ℚ) / (10 : ℚ) ^ fp.length))
    | _ => none

/-! ## Response schemas (`app/schemas.py`) -/

/-- Schema `schemas.IdentifierExtractionResponse`: `extracted_identifiers : Dict[str, str]`
(modelled as an association list) plus the optional error field. -/
structure IdentifierExtractionResponse where
  extracted_identifiers : List (String × String)
  error_message : Option String
deriving DecidableEq, Repr

/-- Schema `schemas.Discrepancy`. -/
structure Discrepancy where
  field_name : String
  document_value : Option String
  erp_value : Option String
  severity : String
  description : Option String
  discrepancy_type : Option String
deriving DecidableEq, Repr

/-- Schema `schemas.FieldConfidence` (note `extraction_confidence` is the required
confidence field; it was renamed from `confidence`). -/
structure FieldConfidence where
  field_name : String
  extracted_value : Option String
  extraction_confidence : ℚ
  match_assessment_confidence : Option ℚ
  verified : Bool
deriving DecidableEq, Repr

/-- Schema `schemas.VerificationResponse`. -/
structure VerificationResponse where
  discrepancies : List Discrepancy
  field_confidences : List FieldConfidence
  overall_verification_confidence : ℚ
  raw_llm_response : Option String
  error_message : Option String
deriving DecidableEq, Repr

/-- Schema `schemas.ClassificationResponse`. -/
structure ClassificationResponse where
  document_type : String
  confidence : ℚ
  reasoning : Option String
  error_message : Option String
deriving DecidableEq, Repr

/-- Schema `schemas.ClassifyAndVerifyResponse`. -/
structure ClassifyAndVerifyResponse where
  document_type : String
  classification_confidence : ℚ
  classification_reasoning : Option String
  discrepancies : List Discrepancy
  field_confidences : List FieldConfidence
  overall_verification_confidence : ℚ
  raw_llm_response : Option String
  error_message : Option String
deriving DecidableEq, Repr

/-! ## Identifier validator (services.py lines 233-288) -/

/-- The fixed per-document-type identifier sets of
`_validate_extracted_identifiers` (lines 261-265); `none` for unknown
document types (lookup is on the lowercased type). -/
def requiredIdentifiers (document_type : String) : Option (List String) :=
  let t := strToLower document_type
  if t == "salesquote" then some ["sales_quote_number", "salesQuoteNo"]
  else if t == "proformainvoice" then some ["tax_invoice_number", "taxInvoiceNo"]
  else if t == "jobconsumption" then some ["job_number", "jobNo"]
  else none

/-- Embedding of `_create_missing_identifier_error` (lines 233-253). -/
def createMissingIdentifierError (document_type : String) (missing : List String) : String :=
  let t := strToLower document_type
  let msgs := missing.filterMap (fun ident =>
    let il := strToLower ident
    if t == "salesquote" then
      if strContains il "sales_quote_number" || strContains il "quote" then
        some "Cannot find Sales Quote Number from Sales Quote document"
      else none
    else if t == "proformainvoice" then
      if strContains il "tax_invoice_number" || strContains il "invoice" then
        some "Cannot find Tax Invoice Number from Proforma Invoice document - please check Proforma Invoice"
      else none
    else if t == "jobconsumption" then
      if strContains il "job_number" || strContains il "job" then
        some "Cannot find Job Number from Job Consumption document"
      else none
    else
      some ("Cannot find required identifier " ++ ident ++ " from " ++ document_type ++ " document"))
  if msgs.isEmpty then "Missing required identifiers from " ++ document_type ++ " document"
  else joinSep "; " msgs

/-- Embedding of `_validate_extracted_identifiers` (lines 256-288): `(is_valid, error_message)`.
The extracted-identifiers dict is an association list of string values;
a value counts (Python truthiness) when it is non-empty. -/
def validateExtractedIdentifiers (document_type : String)
    (extracted : List (String × String)) : Bool × String :=
  match requiredIdentifiers document_type with
  | none => (true, "")
  | some required =>
    let foundAny := required.any (fun f =>
      match extracted.find? (fun p => p.1 == f) with
      | some p => p.2 != ""
      | none => false)
    if foundAny then (true, "")
    else (false, createMissingIdentifierError document_type required)

/-! ## Brace extraction and the orchestrator loop -/

/-- The `re.search(r'({[\s\S]*})', raw)` capture used by the extraction
and classification cascades: the substring from the first `\x7b` to the
last `\x7d`, when the latter occurs strictly after the former. -/
def braceRegion (s : String) : Option String :=
  let cs := s.toList
  match cs.findIdx? (fun c => c == '{') with
  | none => none
  | some i =>
    match (cs.reverse.findIdx? (fun c => c == '}')).map (fun r => cs.length - 1 - r) with
    | none => none
    | some j =>
      if i < j then some (String.mk ((cs.drop i).take (j - i + 1))) else none

/-- The candidate-fallback loop shared by all four service functions
(e.g. lines 170-230): walk the per-candidate attempt outcomes in
preference order, returning the first completed response, or — after
exhausting the list — the last recorded error (`last_error`). -/
def orchestrate {β : Type} : List (Except String β) → Option String → β ⊕ Option String
  | [], last => .inr last
  | a :: rest, _ =>
    match a with
    | .ok r => .inl r
    | .error e => orchestrate rest (some e)

/-- The positions of the candidates the loop actually attempts, in order. -/
def attemptTrace {β : Type} : List (Except String β) → List Nat
  | [] => []
  | .ok _ :: _ => [0]
  | .error _ :: rest => 0 :: (attemptTrace rest).map (· + 1)

/-- First completed attempt, if any (the response `orchestrate` stops at). -/
def firstOk {β : Type} (l : List (Except String β)) : Option β :=
  (l.filterMap (fun a => match a with | .ok r => some r | .error _ => none)).head?

/-- Python `str(last_error)` in the terminal-failure message:
`str(None) = "None"`. -/
def optErrStr : Option String → String
  | none => "None"
  | some e => e

/-! ## Raw model responses

A successful remote call yields free-form text.  The text itself (for
keyword scans, brace extraction and the retained raw output) is a real
`String`; the results of the library collaborators applied to it —
`json.loads` and the `re.search` groups whose shape the service does not
compute itself — are oracle fields packaged with the response, one per
call site. -/

structure RawResponse where
  /-- The raw response text. -/
  text : String
  /-- `json.loads(text)`: `some` decoded value, or `none` on `JSONDecodeError`. -/
  parse : Option JVal
  /-- `json.loads` applied to an extracted substring. -/
  parseSub : String → Option JVal
  /-- Group of ```` re.search(r'```json\s*([\s\S]*?)\s*```', text) ````
  (classify-and-verify, line 808). -/
  fenced : Option String
  /-- Match of `re.search(r'\[\s*\{[^]]*\}\s*\]', text)` (line 934). -/
  arrayMatch : Option String
  /-- Per-field group of the lenient
  `'["\']?<field>["\']?\s*:\s*["\']?(.*?)["\']?[,}]'` scan (line 211). -/
  fieldMatch : String → Option String
  /-- Group of `re.search(r'documentType["\']?\s*:\s*["\']?(\w+)["\']?', text)` (line 1157). -/
  docTypeMatch : Option String
  /-- Group of `re.search(r'confidence["\']?\s*:\s*([0-9.]+)', text)` (line 1164). -/
  confMatch : Option String
  /-- Group of `re.search(r'reasoning["\']?\s*:\s*["\']?(.*?)["\']?[,}]', text)` (line 1171). -/
  reasonMatch : Option String
  /-- Group of the sales-quote-number scan (line 998). -/
  quoteMatch : Option String
  /-- Group of `re.search(r'(SQ\d+)', text)` (line 1004). -/
  sqMatch : Option String
  /-- Group of the invoice-number scan (line 1016). -/
  invoiceMatch : Option String
  /-- Group of `re.search(r'(\d{6,})', text)` (line 1022). -/
  invMatch : Option String
  /-- Group of the job-shipment-number scan (line 1034). -/
  jobMatch : Option String
  /-- Group of `re.search(r'(JC\d+)', text)` (line 1039). -/
  jcMatch : Option String

/-! ## pydantic v2 field validation

`config.py` imports `pydantic_settings`, so the schemas are pydantic v2
models: extra keyword arguments are ignored, missing required fields and
type-mismatched values raise `ValidationError` (modelled as `Except.error`;
the service catches every such exception at the candidate loop). -/

/-- A required `str` field. -/
def pydStr : JVal → Except String String
  | .str s => .ok s
  | _ => .error "ValidationError: input should be a valid string"

/-- An `Optional[str]` field given the looked-up value (absent callers pass `none`). -/
def pydOptStr : Option JVal → Except String (Option String)
  | none => .ok none
  | some .null => .ok none
  | some (.str s) => .ok (some s)
  | some _ => .error "ValidationError: input should be a valid string"

/-- A required `float` field (lax mode: numbers and numeric strings). -/
def pydFloat : JVal → Except String ℚ
  | .num q => .ok q
  | .str s =>
    match parseFloat s with
    | some q => .ok q
    | none => .error "ValidationError: input should be a valid number"
  | _ => .error "ValidationError: input should be a valid number"

/-- An `Optional[float]` field. -/
def pydOptFloat : Option JVal → Except String (Option ℚ)
  | none => .ok none
  | some .null => .ok none
  | some v => (pydFloat v).map some

/-- A `bool` field. -/
def pydBool : JVal → Except String Bool
  | .jbool b => .ok b
  | _ => .error "ValidationError: input should be a valid boolean"

/-- Python iteration `for x in v` over a decoded JSON value: lists yield
elements, strings yield one-character strings, dicts yield their keys,
everything else raises `TypeError`. -/
def pyIter : JVal → Except String (List JVal)
  | .arr xs => .ok xs
  | .str s => .ok (s.toList.map (fun c => .str (String.mk [c])))
  | .obj fs => .ok (fs.map (fun p => .str p.1))
  | _ => .error "TypeError: object is not iterable"

/-- Construction `schemas.Discrepancy(**d)` (line 893 and line 1360). -/
def mkDiscrepancy (v : JVal) : Except String Discrepancy := do
  match v with
  | .obj fs => do
    let fn ← match lookupJ fs "field_name" with
      | some w => pydStr w
      | none => .error "ValidationError: field_name is required"
    let dv ← pydOptStr (lookupJ fs "document_value")
    let ev ← pydOptStr (lookupJ fs "erp_value")
    let sev ← match lookupJ fs "severity" with
      | some w => pydStr w
      | none => .ok "medium"
    let desc ← pydOptStr (lookupJ fs "description")
    let dt ← pydOptStr (lookupJ fs "discrepancy_type")
    .ok ⟨fn, dv, ev, sev, desc, dt⟩
  | _ => .error "TypeError: argument after ** must be a mapping"

/-- Construction `schemas.FieldConfidence(**f)` (line 896 and line 1361). -/
def mkFieldConfidence (v : JVal) : Except String FieldConfidence := do
  match v with
  | .obj fs => do
    let fn ← match lookupJ fs "field_name" with
      | some w => pydStr w
      | none => .error "ValidationError: field_name is required"
    let ev ← pydOptStr (lookupJ fs "extracted_value")
    let ec ← match lookupJ fs "extraction_confidence" with
      | some w => pydFloat w
      | none => .error "ValidationError: extraction_confidence is required"
    let mac ← pydOptFloat (lookupJ fs "match_assessment_confidence")
    let ver ← match lookupJ fs "verified" with
      | some w => pydBool w
      | none => .ok false
    .ok ⟨fn, ev, ec, mac, ver⟩
  | _ => .error "TypeError: argument after ** must be a mapping"

/-! ## Identifier extraction (`extract_identifiers_from_gemini`, lines 121-230) -/

/-- The per-document-type expected-field table (lines 138-143). -/
def fieldsToExtract (document_type : String) : List String :=
  let t := strToLower document_type
  if t == "salesquote" then ["salesQuoteNo", "customerName"]
  else if t == "proformainvoice" then ["proformaInvoiceNo"]
  else if t == "jobconsumption" then ["jobConsumptionNo"]
  else ["documentId"]

/-- Validation of `IdentifierExtractionResponse(extracted_identifiers=extracted_data)`:
pydantic validates the decoded value against `Dict[str, str]`, raising
unless it is an object all of whose values are strings. -/
def toStrMap (v : JVal) : Except String (List (String × String)) :=
  match v with
  | .obj fs => fs.mapM (fun p =>
      match p.2 with
      | .str s => Except.ok (p.1, s)
      | _ => Except.error "ValidationError: input should be a valid string")
  | _ => .error "ValidationError: input should be a valid dictionary"

/-- Processing of one candidate's raw text in `extract_identifiers_from_gemini`
(lines 191-220): direct decode, then brace extraction, then the
per-field regex scan (whose found groups are stripped); when no brace
region exists at all the code raises
`ValueError(f"Could not extract JSON from response: ...")`. -/
def attemptExtract (expected_fields : List String) (raw : RawResponse) :
    Except String IdentifierExtractionResponse := do
  let data ← match raw.parse with
    | some v => Except.ok v
    | none =>
      match braceRegion raw.text with
      | some sub =>
        match raw.parseSub sub with
        | some v => Except.ok v
        | none =>
          Except.ok (JVal.obj (expected_fields.filterMap (fun f =>
            (raw.fieldMatch f).map (fun g => (f, JVal.str (strTrim g))))))
      | none => Except.error ("Could not extract JSON from response: " ++ raw.text)
  let m ← toStrMap data
  .ok { extracted_identifiers := m, error_message := none }

/-- The per-candidate attempt outcomes of identifier extraction: transport
failure, or processing of the returned text. -/
def extractAttempts (document_type : String) (models : List (Except String RawResponse)) :
    List (Except String IdentifierExtractionResponse) :=
  models.map (fun r => r.bind (attemptExtract (fieldsToExtract document_type)))

/-- Embedding of `extract_identifiers_from_gemini` (lines 121-230).  `initialized` is the
process-wide `_vertex_ai_initialized` flag; `models` are the transport
outcomes of the candidate models in preference order. -/
def extract_identifiers_from_gemini (initialized : Bool) (document_type : String)
    (models : List (Except String RawResponse)) : IdentifierExtractionResponse :=
  if initialized = false then
    { extracted_identifiers := [], error_message := some "Vertex AI client not initialized." }
  else
    match orchestrate (extractAttempts document_type models) none with
    | .inl resp => resp
    | .inr last =>
      { extracted_identifiers := [],
        error_message := some ("All Gemini models failed. Last error: " ++ optErrStr last) }

/-! ## Classification (`classify_document_with_gemini`, lines 1095-1237) -/

/-- The keyword-heuristic tier (lines 1176-1185): when no brace region is
extractable, scan the lowercased raw text for canonical type names and
synonyms, in the code's fixed order, and build the heuristic mapping
(confidence 0.7 on a hit, `UNKNOWN`/0.0 otherwise). -/
def keywordTier (text : String) : List (String × JVal) :=
  let t := strToLower text
  if strContains t "salesquote" || strContains t "sales quote" then
    [("documentType", .str "SalesQuote"), ("confidence", .num (7/10)),
     ("reasoning", .str "Extracted from text response")]
  else if strContains t "proformainvoice" || strContains t "proforma invoice" then
    [("documentType", .str "ProformaInvoice"), ("confidence", .num (7/10)),
     ("reasoning", .str "Extracted from text response")]
  else if strContains t "jobconsumption" || strContains t "job consumption"
      || strContains t "job shipment" then
    [("documentType", .str "JobConsumption"), ("confidence", .num (7/10)),
     ("reasoning", .str "Extracted from text response")]
  else
    [("documentType", .str "UNKNOWN"), ("confidence", .num 0),
     ("reasoning", .str "Could not determine document type")]

/-- The manual regex tier of classification (lines 1152-1175): assemble
`documentType` / `confidence` / `reasoning` from individual scans.  The
matched confidence group (`[0-9.]+`) is passed through `float(...)`,
which raises on a malformed group such as `"."`. -/
def manualClassifyTier (raw : RawResponse) : Except String (List (String × JVal)) := do
  let dt := (raw.docTypeMatch).getD "UNKNOWN"
  let conf ← match raw.confMatch with
    | some g =>
      match parseFloat g with
      | some q => Except.ok (JVal.num q)
      | none => Except.error "ValueError: could not convert string to float"
    | none => Except.ok (JVal.num 0)
  let reason := (raw.reasonMatch).getD "No reasoning provided"
  .ok [("documentType", .str dt), ("confidence", conf), ("reasoning", .str reason)]

/-- The classification extraction cascade (lines 1140-1185), producing the
raw `classification_data` mapping.  A decode that yields a non-object
raises once the normalization step subscripts it (`TypeError`). -/
def classifyFields (raw : RawResponse) : Except String (List (String × JVal)) := do
  match raw.parse with
  | some (.obj fs) => Except.ok fs
  | some _ => Except.error "TypeError: value does not support item assignment"
  | none =>
    match braceRegion raw.text with
    | some sub =>
      match raw.parseSub sub with
      | some (.obj fs) => Except.ok fs
      | some _ => Except.error "TypeError: value does not support item assignment"
      | none => manualClassifyTier raw
    | none => Except.ok (keywordTier raw.text)

/-- The document-type synonym table of the normalization step
(lines 1190-1200), applied to the stripped, lowercased raw value. -/
def normalizeDocType (dt : String) : String :=
  let t := strToLower (strTrim dt)
  if t == "salesquote" || t == "sales quote" || t == "sq" then "SalesQuote"
  else if t == "proformainvoice" || t == "proforma invoice" || t == "proforma" || t == "pi" then
    "ProformaInvoice"
  else if t == "jobconsumption" || t == "job consumption" || t == "job shipment"
      || t == "jobshipment" || t == "jc" then "JobConsumption"
  else "UNKNOWN"

/-- The confidence coercion step (lines 1204-1211): `float(...)` guarded by
`except (ValueError, TypeError)`, defaulting to 0.0; there is no
clamping. -/
def coerceConfidence (v : Option JVal) : ℚ :=
  match v with
  | none => 0
  | some (.num q) => q
  | some (.jbool b) => if b then 1 else 0
  | some (.str s) => (parseFloat s).getD 0
  | some _ => 0

/-- Document-type normalization (lines 1187-1202): a present string value
is mapped through the synonym table; a present non-string value
survives normalization untouched and then fails pydantic validation at
response construction; an absent key becomes `UNKNOWN`. -/
def docTypeField (fs : List (String × JVal)) : Except String String :=
  match lookupJ fs "documentType" with
  | some (.str s) => .ok (normalizeDocType s)
  | some _ => .error "ValidationError: input should be a valid string"
  | none => .ok "UNKNOWN"

/-- Reasoning defaulting (lines 1213-1215) followed by pydantic string
validation: absent or falsy values become the fixed placeholder; a
truthy non-string raises at response construction. -/
def reasoningField (fs : List (String × JVal)) : Except String String :=
  match lookupJ fs "reasoning" with
  | none => .ok "No reasoning provided"
  | some v =>
    if jTruthy v then
      match v with
      | .str s => .ok s
      | _ => .error "ValidationError: input should be a valid string"
    else .ok "No reasoning provided"

/-- Normalization and assembly of the final `ClassificationResponse`
(lines 1187-1223) from the recovered mapping: document-type synonym
normalization, confidence coercion and reasoning defaulting. -/
def buildClassification (fs : List (String × JVal)) : Except String ClassificationResponse :=
  (docTypeField fs).bind fun docType =>
  (reasoningField fs).bind fun reasoning =>
  .ok { document_type := docType, confidence := coerceConfidence (lookupJ fs "confidence"),
        reasoning := some reasoning, error_message := none }

/-- Processing of one candidate's raw text in `classify_document_with_gemini`. -/
def attemptClassify (raw : RawResponse) : Except String ClassificationResponse :=
  (classifyFields raw).bind buildClassification

/-- The per-candidate attempt outcomes of classification. -/
def classifyAttempts (models : List (Except String RawResponse)) :
    List (Except String ClassificationResponse) :=
  models.map (fun r => r.bind attemptClassify)

/-- Embedding of `classify_document_with_gemini` (lines 1095-1237). -/
def classify_document_with_gemini (initialized : Bool)
    (models : List (Except String RawResponse)) : ClassificationResponse :=
  if initialized = false then
    { document_type := "UNKNOWN", confidence := 0, reasoning := none,
      error_message := some "Vertex AI client not initialized." }
  else
    match orchestrate (classifyAttempts models) none with
    | .inl resp => resp
    | .inr last =>
      { document_type := "UNKNOWN", confidence := 0, reasoning := none,
        error_message := some ("All Gemini models failed for document classification. Last error: "
          ++ optErrStr last) }

/-! ## Verification (`verify_document_with_gemini`, lines 1239-1385) -/

/-- Processing of one candidate's raw text in `verify_document_with_gemini`
(lines 1333-1368): direct decode, brace extraction, or the minimal
empty mapping; no brace region raises `ValueError`.  The recovered
value is then assembled via the pydantic schemas (`.get` on a non-dict
raises `AttributeError`). -/
def verifyRecovered (raw : RawResponse) : Except String JVal :=
  match raw.parse with
  | some v => .ok v
  | none =>
    match braceRegion raw.text with
    | some sub =>
      match raw.parseSub sub with
      | some v => .ok v
      | none =>
        .ok (JVal.obj
          [("discrepancies", .arr []), ("field_confidences", .arr []),
           ("overall_verification_confidence", .num 0)])
    | none => .error ("Could not extract JSON from response: " ++ raw.text)

def attemptVerify (raw : RawResponse) : Except String VerificationResponse :=
  (verifyRecovered raw).bind fun llm =>
  match llm with
  | .obj fs =>
    (pyIter ((lookupJ fs "discrepancies").getD (.arr []))).bind fun discsJ =>
    (discsJ.mapM mkDiscrepancy).bind fun discs =>
    (pyIter ((lookupJ fs "field_confidences").getD (.arr []))).bind fun fcsJ =>
    (fcsJ.mapM mkFieldConfidence).bind fun fcs =>
    (pydFloat ((lookupJ fs "overall_verification_confidence").getD (.num 0))).bind fun ovc =>
    .ok { discrepancies := discs, field_confidences := fcs,
          overall_verification_confidence := ovc,
          raw_llm_response := some raw.text, error_message := none }
  | _ => .error "AttributeError: value has no attribute get"

/-- The per-candidate attempt outcomes of verification. -/
def verifyAttempts (models : List (Except String RawResponse)) :
    List (Except String VerificationResponse) :=
  models.map (fun r => r.bind attemptVerify)

/-- The raw text retained from the last candidate whose transport call
succeeded (the running `raw_response_text` observed at terminal failure;
it starts as `None` in verification and classification). -/
def lastRawText (models : List (Except String RawResponse)) : Option String :=
  (models.filterMap (fun r => match r with | .ok raw => some raw.text | .error _ => none)).getLast?

/-- The fixed response of the combined/cross-document branch (lines 1259-1266). -/
def combinedVerificationResponse : VerificationResponse :=
  { discrepancies := [], field_confidences := [],
    overall_verification_confidence := 0, raw_llm_response := none,
    error_message := some ("Cross-document verification is orchestrated by the backend. "
      ++ "This path should not be directly called for combined checks.") }

/-- Embedding of `verify_document_with_gemini` (lines 1239-1385).  The prompt choice for
the remaining document types (specific template or generic fallback)
does not affect the recovery pipeline, which is uniform from the raw
text on. -/
def verify_document_with_gemini (initialized : Bool) (document_type : String)
    (models : List (Except String RawResponse)) : VerificationResponse :=
  if initialized = false then
    { discrepancies := [], field_confidences := [],
      overall_verification_confidence := 0, raw_llm_response := none,
      error_message := some "Vertex AI client not initialized." }
  else
    let dt := strToLower document_type
    if dt == "combined" || dt == "all" then combinedVerificationResponse
    else
      match orchestrate (verifyAttempts models) none with
      | .inl resp => resp
      | .inr last =>
        { discrepancies := [], field_confidences := [],
          overall_verification_confidence := 0,
          raw_llm_response := lastRawText models,
          error_message := some ("All Gemini models failed for document verification. Last error: "
            ++ optErrStr last) }

/-! ## Classify-and-verify (`classify_and_verify_with_gemini`, lines 548-1093) -/

/-- The mode test shared by `_build_classify_and_verify_prompt` (line 552)
and `classify_and_verify_with_gemini` (line 723):
`"jobNo" in request_data.erp_data and len(request_data.erp_data) == 1`.
`erpKeys` are the keys of the reference-data dict. -/
def isInitialClassification (erpKeys : List String) : Bool :=
  erpKeys.contains "jobNo" && erpKeys.length == 1

/-- The JSON recovered by the parse step of classify-and-verify (lines
806-814): the fenced ```` ```json ```` block when present, otherwise the
whole text. -/
def cavParsed (raw : RawResponse) : Option JVal :=
  match raw.fenced with
  | some s => raw.parseSub s
  | none => raw.parse

/-- Document-type normalization of the initial-classification array items
(lines 839-845): containment, not equality, on the lowercased value. -/
def normalizedTypeCAV (dt : String) : String :=
  let t := strToLower dt
  if strContains t "sales quote" then "SalesQuote"
  else if strContains t "proforma invoice" then "ProformaInvoice"
  else if strContains t "job shipment" then "JobConsumption"
  else "UNKNOWN"

/-- One element of the parsed initial-classification array (lines 833-867),
yielding its normalized type and reasoning fragment.  A non-dict item or
non-string `document_type` raises (`.get` / `.lower()`); a truthy
`identifier_value` raises while building the `FieldConfidence`: the call
passes keyword `confidence` (line 861) but the schema's required field
is `extraction_confidence` (schemas.py line 45), so pydantic ignores the
former and reports the latter missing. -/
def processInitDoc (v : JVal) : Except String (String × String) :=
  match v with
  | .obj fs =>
    (match (lookupJ fs "document_type").getD (.str "UNKNOWN") with
      | .str s => Except.ok s
      | _ => Except.error "AttributeError: value has no attribute lower").bind fun dt =>
    let labelv := (lookupJ fs "identifier_label").getD (.str "")
    let valv := (lookupJ fs "identifier_value").getD (.str "")
    if jTruthy valv then
      .error "ValidationError: extraction_confidence is required"
    else
      .ok (normalizedTypeCAV dt, dt ++ " with " ++ jToStr labelv ++ ": " ++ jToStr valv)
  | _ => .error "AttributeError: value has no attribute get"

/-- The parsed initial-classification path (lines 817-885): wrap a
non-array value, process each document, pick the primary type by fixed
priority, and assemble the response (every identifier-bearing document
raises, so the surviving field-confidence list is empty). -/
def attemptCAVParsedInit (raw : RawResponse) (v : JVal) :
    Except String ClassifyAndVerifyResponse :=
  ((match v with | .arr xs => xs | w => [w]).mapM processInitDoc).bind fun results =>
  .ok { document_type :=
          if (results.map Prod.fst).contains "SalesQuote" then "SalesQuote"
          else if (results.map Prod.fst).contains "ProformaInvoice" then "ProformaInvoice"
          else if (results.map Prod.fst).contains "JobConsumption" then "JobConsumption"
          else "UNKNOWN",
        classification_confidence := 9/10,
        classification_reasoning :=
          some ("Documents identified: " ++ joinSep ", " (results.map Prod.snd)),
        discrepancies := [], field_confidences := [],
        overall_verification_confidence := 0,
        raw_llm_response := some raw.text, error_message := none }

/-- The parsed verification path (lines 887-900): assemble the response
directly from the decoded dict via the pydantic schemas. -/
def attemptCAVParsedVerif (raw : RawResponse) (v : JVal) :
    Except String ClassifyAndVerifyResponse :=
  match v with
  | .obj fs =>
    (pydStr ((lookupJ fs "documentType").getD (.str "UNKNOWN"))).bind fun dt =>
    (pydFloat ((lookupJ fs "classificationConfidence").getD (.num 0))).bind fun cc =>
    (pydOptStr (some ((lookupJ fs "classificationReasoning").getD
      (.str "No reasoning provided")))).bind fun cr =>
    (pyIter ((lookupJ fs "discrepancies").getD (.arr []))).bind fun discsJ =>
    (discsJ.mapM mkDiscrepancy).bind fun discs =>
    (pyIter ((lookupJ fs "fieldConfidences").getD (.arr []))).bind fun fcsJ =>
    (fcsJ.mapM mkFieldConfidence).bind fun fcs =>
    (pydFloat ((lookupJ fs "overallVerificationConfidence").getD (.num 0))).bind fun ovc =>
    .ok { document_type := dt, classification_confidence := cc, classification_reasoning := cr,
          discrepancies := discs, field_confidences := fcs,
          overall_verification_confidence := ovc,
          raw_llm_response := some raw.text, error_message := none }
  | _ => .error "AttributeError: value has no attribute get"

/-- The first keyword scan of the JSONDecodeError fallback (lines 922-928). -/
def kwScanCAV1 (text : String) : String :=
  let t := strToLower text
  if strContains t "salesquote" || strContains t "sales quote" then "SalesQuote"
  else if strContains t "proformainvoice" || strContains t "proforma invoice" then
    "ProformaInvoice"
  else if strContains t "jobconsumption" || strContains t "job consumption"
      || strContains t "job shipment" then "JobConsumption"
  else "UNKNOWN"

/-- The narrower keyword rescan of the initial-classification fallback
(lines 988-995). -/
def kwScanCAV2 (text : String) : String :=
  let t := strToLower text
  if strContains t "sales quote" then "SalesQuote"
  else if strContains t "proforma invoice" then "ProformaInvoice"
  else if strContains t "job shipment" then "JobConsumption"
  else "UNKNOWN"

/-- One item of the JSON array recovered inside the fallback (lines
941-961): a non-dict raises at `.get`; a truthy `identifier_value`
raises while building the `FieldConfidence` (the stale `confidence`
keyword again). -/
def processFallbackItem (v : JVal) : Except String Unit :=
  match v with
  | .obj fs =>
    if jTruthy ((lookupJ fs "identifier_value").getD (.str "")) then
      .error "ValidationError: extraction_confidence is required"
    else .ok ()
  | _ => .error "AttributeError: value has no attribute get"

/-- The basic text-fallback response (lines 1072-1078). -/
def cavBasicResponse (document_type : String) (raw : RawResponse) : ClassifyAndVerifyResponse :=
  { document_type := document_type, classification_confidence := 1/2,
    classification_reasoning := some "Extracted from text response",
    discrepancies := [], field_confidences := [],
    overall_verification_confidence := 0,
    raw_llm_response := some raw.text, error_message := none }

/-- The JSONDecodeError fallback of classify-and-verify (lines 918-1078):
keyword scans, the array-recovery sub-tier, the identifier regexes
(whose appends raise on any hit), then — in initial-classification mode
with a recognized type — validation of the (necessarily empty)
extracted-identifiers mapping, which produces the business-error
response. -/
def cavArrayStep (raw : RawResponse) : Except String Unit :=
  match raw.arrayMatch with
  | some s =>
    match raw.parseSub s with
    | some v =>
      (pyIter v).bind fun items =>
      (items.mapM processFallbackItem).bind fun _ => .ok ()
    | none => .ok ()
  | none => .ok ()

/-- The identifier-regex branches and terminal assembly of the
initial-classification fallback (lines 988-1078), run after the
array-recovery step. -/
def cavFallbackInitTail (raw : RawResponse) : Except String ClassifyAndVerifyResponse :=
  let dt2 := kwScanCAV2 raw.text
  let qv0 := match raw.quoteMatch with | some g => g | none => ""
  let qv := if qv0 == "" then (raw.sqMatch.getD "") else qv0
  if (raw.quoteMatch.isSome || dt2 == "SalesQuote") && qv != "" then
    .error "ValidationError: extraction_confidence is required"
  else
  let iv0 := match raw.invoiceMatch with | some g => g | none => ""
  let iv := if iv0 == "" then (raw.invMatch.getD "") else iv0
  if (raw.invoiceMatch.isSome || dt2 == "ProformaInvoice") && iv != "" then
    .error "ValidationError: extraction_confidence is required"
  else
  let jv0 := match raw.jobMatch with | some g => g | none => ""
  let jv := if jv0 == "" then (raw.jcMatch.getD "") else jv0
  if (raw.jobMatch.isSome || dt2 == "JobConsumption") && jv != "" then
    .error "ValidationError: extraction_confidence is required"
  else
  if dt2 != "UNKNOWN" then
    let vr := validateExtractedIdentifiers dt2 []
    if vr.1 = false then
      .ok { document_type := dt2, classification_confidence := 1/2,
            classification_reasoning :=
              some "Document classified but missing required identifiers",
            discrepancies := [], field_confidences := [],
            overall_verification_confidence := 0,
            raw_llm_response := some raw.text, error_message := some vr.2 }
    else .ok (cavBasicResponse dt2 raw)
  else .ok (cavBasicResponse dt2 raw)

def attemptCAVFallback (isInit : Bool) (raw : RawResponse) :
    Except String ClassifyAndVerifyResponse :=
  if isInit then
    (cavArrayStep raw).bind fun _ => cavFallbackInitTail raw
  else .ok (cavBasicResponse (kwScanCAV1 raw.text) raw)

/-- Processing of one candidate's raw text in classify-and-verify. -/
def attemptCAV (isInit : Bool) (raw : RawResponse) : Except String ClassifyAndVerifyResponse :=
  match cavParsed raw with
  | some v => if isInit then attemptCAVParsedInit raw v else attemptCAVParsedVerif raw v
  | none => attemptCAVFallback isInit raw

/-- The per-candidate attempt outcomes of classify-and-verify. -/
def cavAttempts (isInit : Bool) (models : List (Except String RawResponse)) :
    List (Except String ClassifyAndVerifyResponse) :=
  models.map (fun r => r.bind (attemptCAV isInit))

/-- An all-defaults failure record for classify-and-verify. -/
def cavFailureResponse (msg : String) (rawText : Option String) : ClassifyAndVerifyResponse :=
  { document_type := "UNKNOWN", classification_confidence := 0,
    classification_reasoning := none, discrepancies := [], field_confidences := [],
    overall_verification_confidence := 0, raw_llm_response := rawText,
    error_message := some msg }

/-- The candidate loop of `classify_and_verify_with_gemini` (lines 791-1093),
given the already-selected mode (the running `raw_response_text` starts
as `""` here, so terminal failure retains an empty string when no
transport call succeeded). -/
def cavLoop (isInit : Bool) (models : List (Except String RawResponse)) :
    ClassifyAndVerifyResponse :=
  match orchestrate (cavAttempts isInit models) none with
  | .inl resp => resp
  | .inr last =>
    cavFailureResponse
      ("All Gemini models failed for classification and verification. Last error: "
        ++ optErrStr last)
      (some ((lastRawText models).getD ""))

/-- Embedding of `classify_and_verify_with_gemini` (lines 704-1093).
`erpKeys` are the keys of `request_data.erp_data`; `imagesDecode`
records, per supplied image, whether its base64 payload decodes
(lines 741-748); `models` are the transport outcomes of the candidates. -/
def classify_and_verify_with_gemini (initialized : Bool) (erpKeys : List String)
    (imagesDecode : List Bool) (models : List (Except String RawResponse)) :
    ClassifyAndVerifyResponse :=
  if initialized = false then
    cavFailureResponse "Vertex AI client not initialized." none
  else if imagesDecode.any id = false then
    cavFailureResponse "No valid images provided" none
  else
    cavLoop (isInitialClassification erpKeys) models

/-! ## Test fixtures: concrete raw responses -/

/-- A raw response that is plain prose: it decodes to nothing, and none of
the regex scans match. -/
def plainRaw (t : String) : RawResponse :=
  { text := t, parse := none, parseSub := fun _ => none, fenced := none, arrayMatch := none,
    fieldMatch := fun _ => none, docTypeMatch := none, confMatch := none, reasonMatch := none,
    quoteMatch := none, sqMatch := none, invoiceMatch := none, invMatch := none,
    jobMatch := none, jcMatch := none }

/-- A raw response whose whole text decodes to the empty JSON object. -/
def emptyObjRaw : RawResponse :=
  { plainRaw "x" with parse := some (.obj []) }

/-! ## Shared lemmas about the candidate loop -/

theorem orchestrate_eq_inl_iff {β : Type} (l : List (Except String β)) (last : Option String)
    (r : β) : orchestrate l last = .inl r ↔ firstOk l = some r := by
  induction l generalizing last with
  | nil => simp [orchestrate, firstOk]
  | cons a rest ih =>
    cases a with
    | ok v => simp [orchestrate, firstOk, List.filterMap_cons]
    | error e =>
      simpa [orchestrate, firstOk, List.filterMap_cons] using ih (some e)

theorem orchestrate_inr_of_firstOk_none {β : Type} (l : List (Except String β))
    (last : Option String) (h : firstOk l = none) : ∃ m, orchestrate l last = .inr m := by
  cases horch : orchestrate l last with
  | inl r =>
    rw [orchestrate_eq_inl_iff] at horch
    rw [horch] at h
    cases h
  | inr m => exact ⟨m, rfl⟩

theorem bindOk {ε α β : Type} {x : Except ε α} {f : α → Except ε β} {r : β}
    (h : x >>= f = .ok r) : ∃ a, x = .ok a ∧ f a = .ok r := by
  cases x with
  | ok a => exact ⟨a, rfl, h⟩
  | error e => simp [Bind.bind, Except.bind] at h

theorem firstOk_some_mem {β : Type} {l : List (Except String β)} {r : β}
    (h : firstOk l = some r) : Except.ok r ∈ l := by
  have hm : r ∈ l.filterMap (fun a => match a with | .ok v => some v | .error _ => none) := by
    unfold firstOk at h
    exact List.mem_of_mem_head? h
  rcases List.mem_filterMap.mp hm with ⟨a, hal, ha⟩
  cases a with
  | ok v =>
    simp at ha
    subst ha
    exact hal
  | error e => simp at ha

theorem orchestrate_first_success {β : Type} :
    ∀ (l : List (Except String β)) (last : Option String) (k : Nat) (r : β),
      (∀ j, j < k → ∃ e, l[j]? = some (.error e)) → l[k]? = some (.ok r) →
      orchestrate l last = .inl r := by
  intro l
  induction l with
  | nil => intro last k r _ hk; simp at hk
  | cons a rest ih =>
    intro last k r hj hk
    cases k with
    | zero =>
      simp at hk
      rw [hk]
      rfl
    | succ k =>
      rcases hj 0 (Nat.succ_pos k) with ⟨e, he⟩
      simp at he
      rw [he]
      show orchestrate rest (some e) = .inl r
      exact ih (some e) k r (fun j hjk => by
        rcases hj (j + 1) (Nat.succ_lt_succ hjk) with ⟨e', he'⟩
        exact ⟨e', by simpa using he'⟩) (by simpa using hk)

theorem attemptTrace_first_success {β : Type} :
    ∀ (l : List (Except String β)) (k : Nat) (r : β),
      (∀ j, j < k → ∃ e, l[j]? = some (.error e)) → l[k]? = some (.ok r) →
      attemptTrace l = List.range (k + 1) := by
  intro l
  induction l with
  | nil => intro k r _ hk; simp at hk
  | cons a rest ih =>
    intro k r hj hk
    cases k with
    | zero =>
      simp at hk
      rw [hk]
      rfl
    | succ k =>
      rcases hj 0 (Nat.succ_pos k) with ⟨e, he⟩
      simp at he
      rw [he]
      show 0 :: (attemptTrace rest).map (· + 1) = List.range (k + 2)
      rw [ih k r (fun j hjk => by
          rcases hj (j + 1) (Nat.succ_lt_succ hjk) with ⟨e', he'⟩
          exact ⟨e', by simpa using he'⟩) (by simpa using hk)]
      rw [List.range_succ_eq_map (k + 1)]

theorem attemptTrace_is_range_below {β : Type} :
    ∀ l : List (Except String β), ∃ k, k ≤ l.length ∧ attemptTrace l = List.range k := by
  intro l
  induction l with
  | nil => exact ⟨0, Nat.le_refl 0, rfl⟩
  | cons a rest ih =>
    cases a with
    | ok v => exact ⟨1, Nat.succ_le_succ (Nat.zero_le _), rfl⟩
    | error e =>
      rcases ih with ⟨k, hk, htr⟩
      refine ⟨k + 1, Nat.succ_le_succ hk, ?_⟩
      show 0 :: (attemptTrace rest).map (· + 1) = List.range (k + 1)
      rw [htr, List.range_succ_eq_map k]

theorem orchestrate_all_error {β : Type} :
    ∀ l : List (Except String β), l ≠ [] → (∀ a ∈ l, ∃ e, a = .error e) →
      ∃ e, l.getLast? = some (.error e) ∧ ∀ last, orchestrate l last = .inr (some e) := by
  intro l
  induction l with
  | nil => intro h; cases h rfl
  | cons a rest ih =>
    intro _ hall
    rcases hall a (List.mem_cons_self a rest) with ⟨e0, he0⟩
    subst he0
    cases rest with
    | nil => exact ⟨e0, rfl, fun last => rfl⟩
    | cons b rest' =>
      rcases ih (List.cons_ne_nil b rest')
          (fun x hx => hall x (List.mem_cons_of_mem _ hx)) with ⟨e, hlast, horch⟩
      exact ⟨e, by simpa using hlast, fun last => horch (some e0)⟩

/-- C5 — the orchestrator tries the candidates strictly in preference
order: an attempt that raises is recorded and the loop moves on, the
first completed attempt is returned as the result, the attempted
positions form an initial, duplicate-free segment of the candidate list
(so no candidate is tried twice), terminal failure carries the error of
the last candidate, and — at the service level — when candidate A's
transport fails and candidate B's response processes to `resp`,
identifier extraction returns exactly `resp`.  Confirms the claim. -/
theorem claim_C5 {β : Type} :
    (∀ (l : List (Except String β)) (last : Option String) (k : Nat) (r : β),
      (∀ j, j < k → ∃ e, l[j]? = some (.error e)) → l[k]? = some (.ok r) →
      orchestrate l last = .inl r ∧ attemptTrace l = List.range (k + 1))
    ∧ (∀ l : List (Except String β), ∃ k, k ≤ l.length ∧ attemptTrace l = List.range k)
    ∧ (∀ l : List (Except String β), (attemptTrace l).Nodup)
    ∧ (∀ l : List (Except String β), l ≠ [] → (∀ a ∈ l, ∃ e, a = .error e) →
        ∃ e, l.getLast? = some (.error e) ∧ ∀ last, orchestrate l last = .inr (some e))
    ∧ (∀ (document_type e : String) (raw : RawResponse) (resp : IdentifierExtractionResponse),
        attemptExtract (fieldsToExtract document_type) raw = .ok resp →
        extract_identifiers_from_gemini true document_type [.error e, .ok raw] = resp) := by
  refine ⟨?_, attemptTrace_is_range_below, ?_, orchestrate_all_error, ?_⟩
  · intro l last k r hj hk
    exact ⟨orchestrate_first_success l last k r hj hk,
      attemptTrace_first_success l k r hj hk⟩
  · intro l
    rcases attemptTrace_is_range_below l with ⟨k, _, htr⟩
    rw [htr]
    exact List.nodup_range k
  · intro document_type e raw resp h
    simp [extract_identifiers_from_gemini, extractAttempts, orchestrate,
      Bind.bind, Except.bind, h]

/-- Witness for C5 at a concrete candidate list: position 0 raises
`"boom"`, position 1 completes with `7`; the loop returns `7` and the
trace is exactly `[0, 1]`. -/
theorem claim_C5_witness :
    orchestrate (β := Nat) [.error "boom", .ok 7] none = .inl 7
    ∧ attemptTrace (β := Nat) [.error "boom", .ok 7] = List.range 2 := by
  have h := (claim_C5 (β := Nat)).1 [.error "boom", .ok 7] none 1 7
    (fun j hj => by
      match j, hj with
      | 0, _ => exact ⟨"boom", rfl⟩)
    rfl
  exact h

theorem toStrMap_map_str (ps : List (String × String)) :
    toStrMap (.obj (ps.map (fun p => (p.1, JVal.str p.2)))) = .ok ps := by
  induction ps with
  | nil => rfl
  | cons p rest ih =>
    simp only [toStrMap, List.map_cons, List.mapM_cons] at ih ⊢
    rw [ih]
    rfl

/-- C4 (amended) — the extraction cascade of identifier extraction is
lenient but not total: when direct decoding fails and a brace-delimited
region exists but fails to decode, the field-regex tier completes with a
best-effort (possibly empty) mapping and no error; but when the raw text
contains no brace-delimited region at all, the attempt raises
`ValueError` and is treated as a failed candidate, so a successful
remote call whose text holds no braces does yield a parse-failure
outcome. -/
theorem claim_C4 (expected : List String) (raw : RawResponse) (hparse : raw.parse = none) :
    (∀ sub, braceRegion raw.text = some sub → raw.parseSub sub = none →
      attemptExtract expected raw =
        .ok { extracted_identifiers :=
                expected.filterMap (fun f => (raw.fieldMatch f).map (fun g => (f, strTrim g))),
              error_message := none })
    ∧ (braceRegion raw.text = none →
      attemptExtract expected raw =
        .error ("Could not extract JSON from response: " ++ raw.text)) := by
  constructor
  · intro sub hsub hfail
    have hobj : (expected.filterMap (fun f =>
        (raw.fieldMatch f).map (fun g => (f, JVal.str (strTrim g))))) =
        (expected.filterMap (fun f =>
          (raw.fieldMatch f).map (fun g => (f, strTrim g)))).map
            (fun p => (p.1, JVal.str p.2)) := by
      rw [List.map_filterMap]
      congr 1
      funext f
      cases raw.fieldMatch f <;> rfl
    simp only [attemptExtract, hparse, hsub, hfail, hobj, toStrMap_map_str,
      Bind.bind, Except.bind]
  · intro hnone
    simp only [attemptExtract, hparse, hnone, Bind.bind, Except.bind]

/-- Counterexample to C4 as stated: the raw text `"no json here"` holds no
brace-delimited region; the attempt does not return a best-effort
mapping but raises, and with both candidates returning that text the
request ends in the terminal parse-failure record. -/
theorem claim_C4_counterexample :
    attemptExtract (fieldsToExtract "salesquote") (plainRaw "no json here") =
      .error "Could not extract JSON from response: no json here"
    ∧ extract_identifiers_from_gemini true "salesquote"
        [.ok (plainRaw "no json here"), .ok (plainRaw "no json here")] =
      { extracted_identifiers := [],
        error_message :=
          some "All Gemini models failed. Last error: Could not extract JSON from response: no json here" } :=
  ⟨rfl, rfl⟩

/-- Witness for C4 at a concrete input: plain prose with no braces is
rejected by the cascade with the `ValueError` message. -/
theorem claim_C4_witness :
    attemptExtract ["documentId"] (plainRaw "plain text") =
      .error "Could not extract JSON from response: plain text" :=
  (claim_C4 ["documentId"] (plainRaw "plain text") rfl).2 rfl

/-- C3 (amended) — confidence normalization in classification attempts
numeric conversion and defaults non-numeric or missing values to 0.0,
but it does not clamp: a numeric value passes through unchanged, so
`"abc"` and a missing value normalize to 0.0 while `-5` and `1.5`
normalize to `-5.0` and `1.5` themselves; the returned confidence is
whatever coercion yields, not necessarily within `[0.0, 1.0]`. -/
theorem claim_C3 :
    coerceConfidence none = 0
    ∧ coerceConfidence (some (.str "abc")) = 0
    ∧ coerceConfidence (some (.num (-5))) = -5
    ∧ coerceConfidence (some (.num (3/2))) = 3/2
    ∧ (∀ q : ℚ, coerceConfidence (some (.num q)) = q)
    ∧ (∀ fs r, buildClassification fs = .ok r →
        r.confidence = coerceConfidence (lookupJ fs "confidence")) := by
  refine ⟨rfl, rfl, rfl, rfl, fun q => rfl, ?_⟩
  intro fs r h
  unfold buildClassification at h
  rcases bindOk h with ⟨dt, hdt, h⟩
  rcases bindOk h with ⟨reas, hreas, h⟩
  cases h
  rfl

/-- Counterexample to C3 as stated: the claim says `-5` and `1.5` are
clamped to `0.0` and `1.0`; the coercion step leaves them at `-5` and
`1.5`, values outside `[0.0, 1.0]`. -/
theorem claim_C3_counterexample :
    coerceConfidence (some (.num (3/2))) ≠ 1
    ∧ coerceConfidence (some (.num (-5))) ≠ 0
    ∧ ¬(coerceConfidence (some (.num (3/2))) ≤ 1 ∧ 0 ≤ coerceConfidence (some (.num (-5)))) := by
  have h1 : coerceConfidence (some (.num (3/2))) = 3/2 := rfl
  have h2 : coerceConfidence (some (.num (-5))) = -5 := rfl
  rw [h1, h2]
  norm_num

/-- Witness for C3 at a concrete mapping: a classification built from
`confidence = 1.5` reports confidence exactly `1.5`. -/
theorem claim_C3_witness :
    ({ document_type := "UNKNOWN", confidence := 3/2,
       reasoning := some "No reasoning provided",
       error_message := none } : ClassificationResponse).confidence =
      coerceConfidence (lookupJ [("confidence", .num (3/2))] "confidence") :=
  claim_C3.2.2.2.2.2 [("confidence", .num (3/2))]
    { document_type := "UNKNOWN", confidence := 3/2,
      reasoning := some "No reasoning provided", error_message := none } rfl

/-- C6 — when classification's raw text has no brace-delimited JSON
region, the case-insensitive keyword scan decides the result, checking
the types in the code's fixed order (SalesQuote, then ProformaInvoice,
then JobConsumption): a hit yields that type with confidence exactly
0.7, and no hit yields `UNKNOWN` with confidence exactly 0.0.  Confirms
the claim (the scan's priority order resolves texts naming several
types). -/
theorem claim_C6 (raw : RawResponse) (hparse : raw.parse = none)
    (hbrace : braceRegion raw.text = none) :
    ((strContains (strToLower raw.text) "salesquote"
        || strContains (strToLower raw.text) "sales quote") = true →
      attemptClassify raw =
        .ok { document_type := "SalesQuote", confidence := 7/10,
              reasoning := some "Extracted from text response", error_message := none })
    ∧ ((strContains (strToLower raw.text) "salesquote"
        || strContains (strToLower raw.text) "sales quote") = false →
       (strContains (strToLower raw.text) "proformainvoice"
        || strContains (strToLower raw.text) "proforma invoice") = true →
      attemptClassify raw =
        .ok { document_type := "ProformaInvoice", confidence := 7/10,
              reasoning := some "Extracted from text response", error_message := none })
    ∧ ((strContains (strToLower raw.text) "salesquote"
        || strContains (strToLower raw.text) "sales quote") = false →
       (strContains (strToLower raw.text) "proformainvoice"
        || strContains (strToLower raw.text) "proforma invoice") = false →
       (strContains (strToLower raw.text) "jobconsumption"
        || strContains (strToLower raw.text) "job consumption"
        || strContains (strToLower raw.text) "job shipment") = true →
      attemptClassify raw =
        .ok { document_type := "JobConsumption", confidence := 7/10,
              reasoning := some "Extracted from text response", error_message := none })
    ∧ ((strContains (strToLower raw.text) "salesquote"
        || strContains (strToLower raw.text) "sales quote") = false →
       (strContains (strToLower raw.text) "proformainvoice"
        || strContains (strToLower raw.text) "proforma invoice") = false →
       (strContains (strToLower raw.text) "jobconsumption"
        || strContains (strToLower raw.text) "job consumption"
        || strContains (strToLower raw.text) "job shipment") = false →
      attemptClassify raw =
        .ok { document_type := "UNKNOWN", confidence := 0,
              reasoning := some "Could not determine document type",
              error_message := none }) := by
  have hcf : classifyFields raw = .ok (keywordTier raw.text) := by
    simp [classifyFields, hparse, hbrace]
  refine ⟨?_, ?_, ?_, ?_⟩
  · intro h1
    unfold attemptClassify
    rw [hcf]
    show buildClassification (keywordTier raw.text) = _
    simp only [keywordTier, h1]
    rfl
  · intro h1 h2
    unfold attemptClassify
    rw [hcf]
    show buildClassification (keywordTier raw.text) = _
    simp only [keywordTier, h1, h2]
    rfl
  · intro h1 h2 h3
    unfold attemptClassify
    rw [hcf]
    show buildClassification (keywordTier raw.text) = _
    simp only [keywordTier, h1, h2, h3]
    rfl
  · intro h1 h2 h3
    unfold attemptClassify
    rw [hcf]
    show buildClassification (keywordTier raw.text) = _
    simp only [keywordTier, h1, h2, h3]
    rfl

/-- Witness for C6 at concrete raw texts: prose naming only `job shipment`
classifies as `JobConsumption` at confidence 0.7; prose naming no type
classifies as `UNKNOWN` at confidence 0.0. -/
theorem claim_C6_witness :
    attemptClassify (plainRaw "these images show a job shipment form") =
      .ok { document_type := "JobConsumption", confidence := 7/10,
            reasoning := some "Extracted from text response", error_message := none }
    ∧ attemptClassify (plainRaw "nothing recognizable") =
      .ok { document_type := "UNKNOWN", confidence := 0,
            reasoning := some "Could not determine document type", error_message := none } :=
  ⟨(claim_C6 (plainRaw "these images show a job shipment form") rfl rfl).2.2.1 rfl rfl rfl,
   (claim_C6 (plainRaw "nothing recognizable") rfl rfl).2.2.2 rfl rfl rfl⟩

/-- C7 — identifier validation passes exactly when, for a known document
type, some field of that type's fixed identifier set is present with a
non-empty value; unknown document types always pass; and a validation
failure for the SalesQuote document type produces a message containing
the phrase `"Sales Quote"`.  Confirms the claim. -/
theorem claim_C7 (document_type : String) (extracted : List (String × String)) :
    (requiredIdentifiers document_type = none →
      validateExtractedIdentifiers document_type extracted = (true, ""))
    ∧ (∀ req, requiredIdentifiers document_type = some req →
        ((validateExtractedIdentifiers document_type extracted).1 = true ↔
          ∃ f ∈ req, ∃ v, (extracted.find? (fun p => p.1 == f)).map Prod.snd = some v
            ∧ v ≠ ""))
    ∧ (strToLower document_type = "salesquote" →
        (validateExtractedIdentifiers document_type extracted).1 = false →
        strContains (validateExtractedIdentifiers document_type extracted).2
          "Sales Quote" = true) := by
  have hany : ∀ req : List String, ((req.any fun f =>
      match extracted.find? (fun p => p.1 == f) with
      | some p => p.2 != ""
      | none => false) = true) ↔
      ∃ f ∈ req, ∃ v, (extracted.find? (fun p => p.1 == f)).map Prod.snd = some v
        ∧ v ≠ "" := by
    intro req
    rw [List.any_eq_true]
    constructor
    · rintro ⟨f, hf, hp⟩
      cases hfind : extracted.find? (fun p => p.1 == f) with
      | none => rw [hfind] at hp; cases hp
      | some p =>
        rw [hfind] at hp
        exact ⟨f, hf, p.2, by rw [hfind]; rfl, by simpa using hp⟩
    · rintro ⟨f, hf, v, hv, hne⟩
      refine ⟨f, hf, ?_⟩
      cases hfind : extracted.find? (fun p => p.1 == f) with
      | none => rw [hfind] at hv; cases hv
      | some p =>
        rw [hfind] at hv
        simp only [Option.map_some', Option.some.injEq] at hv
        simp [hfind, hv, hne]
  have hval : ∀ req, requiredIdentifiers document_type = some req →
      validateExtractedIdentifiers document_type extracted =
      (if (req.any fun f =>
          match extracted.find? (fun p => p.1 == f) with
          | some p => p.2 != ""
          | none => false) = true then ((true, "") : Bool × String)
       else (false, createMissingIdentifierError document_type req)) := by
    intro req h
    unfold validateExtractedIdentifiers
    rw [h]
  refine ⟨?_, ?_, ?_⟩
  · intro h
    unfold validateExtractedIdentifiers
    rw [h]
  · intro req h
    rw [hval req h]
    cases hfa : (req.any fun f =>
        match extracted.find? (fun p => p.1 == f) with
        | some p => p.2 != ""
        | none => false) with
    | true =>
      simpa using (hany req).mp hfa
    | false =>
      rw [if_neg Bool.false_ne_true]
      constructor
      · intro hcontra
        cases hcontra
      · intro hex
        rw [← hany req, hfa] at hex
        exact absurd hex Bool.false_ne_true
  · intro hlow hfail
    have hreq : requiredIdentifiers document_type =
        some ["sales_quote_number", "salesQuoteNo"] := by
      unfold requiredIdentifiers
      rw [hlow]
      rfl
    have hmsg : createMissingIdentifierError document_type
        ["sales_quote_number", "salesQuoteNo"] =
        "Cannot find Sales Quote Number from Sales Quote document; Cannot find Sales Quote Number from Sales Quote document" := by
      unfold createMissingIdentifierError
      rw [hlow]
      rfl
    rw [hval _ hreq] at hfail ⊢
    cases hfa : (["sales_quote_number", "salesQuoteNo"].any fun f =>
        match extracted.find? (fun p => p.1 == f) with
        | some p => p.2 != ""
        | none => false) with
    | true =>
      rw [hfa] at hfail
      simp at hfail
    | false =>
      rw [if_neg Bool.false_ne_true]
      show strContains (createMissingIdentifierError document_type
        ["sales_quote_number", "salesQuoteNo"]) "Sales Quote" = true
      rw [hmsg]
      decide

/-- Witness for C7 at concrete inputs: for document type `SalesQuote` with
no extracted identifiers, validation fails and the message mentions
`"Sales Quote"`; an unknown document type passes unconditionally. -/
theorem claim_C7_witness :
    strContains (validateExtractedIdentifiers "SalesQuote" []).2 "Sales Quote" = true
    ∧ validateExtractedIdentifiers "PackingList" [] = (true, "") :=
  ⟨(claim_C7 "SalesQuote" []).2.2 rfl rfl,
   (claim_C7 "PackingList" []).1 rfl⟩

theorem normalizeDocType_mem (s : String) :
    normalizeDocType s ∈ ["SalesQuote", "ProformaInvoice", "JobConsumption", "UNKNOWN"] := by
  simp only [normalizeDocType]
  split
  · simp
  · split
    · simp
    · split <;> simp

theorem buildClassification_docType_mem {fs : List (String × JVal)}
    {r : ClassificationResponse} (h : buildClassification fs = .ok r) :
    r.document_type ∈ ["SalesQuote", "ProformaInvoice", "JobConsumption", "UNKNOWN"] := by
  unfold buildClassification at h
  rcases bindOk h with ⟨dt, hdt, h⟩
  rcases bindOk h with ⟨reas, hreas, h⟩
  cases h
  unfold docTypeField at hdt
  split at hdt
  · cases hdt
    exact normalizeDocType_mem _
  · cases hdt
  · cases hdt
    simp

theorem attemptClassify_docType_mem {raw : RawResponse} {r : ClassificationResponse}
    (h : attemptClassify raw = .ok r) :
    r.document_type ∈ ["SalesQuote", "ProformaInvoice", "JobConsumption", "UNKNOWN"] := by
  unfold attemptClassify at h
  rcases bindOk h with ⟨fs, _, h⟩
  exact buildClassification_docType_mem h

/-- C9 — every response returned by the classification operation carries a
document type drawn from exactly
`{SalesQuote, ProformaInvoice, JobConsumption, UNKNOWN}`: the
normalization step maps any string through the case-insensitive synonym
tables (including the abbreviations `sq`, `pi`, `jc`), replacing
everything unmapped by `UNKNOWN`, and every fallback and failure path
produces a member of the same set.  Confirms the claim. -/
theorem claim_C9 (initialized : Bool) (models : List (Except String RawResponse)) :
    (classify_document_with_gemini initialized models).document_type
      ∈ ["SalesQuote", "ProformaInvoice", "JobConsumption", "UNKNOWN"]
    ∧ normalizeDocType "sq" = "SalesQuote"
    ∧ normalizeDocType "PI" = "ProformaInvoice"
    ∧ normalizeDocType "jc" = "JobConsumption"
    ∧ normalizeDocType "purchase order" = "UNKNOWN" := by
  refine ⟨?_, rfl, rfl, rfl, rfl⟩
  unfold classify_document_with_gemini
  cases initialized with
  | false => simp
  | true =>
    simp only [Bool.true_eq_false, if_false]
    cases horch : orchestrate (classifyAttempts models) none with
    | inr last => simp
    | inl resp =>
      simp only []
      rw [orchestrate_eq_inl_iff] at horch
      have hmem := firstOk_some_mem horch
      rcases List.mem_map.mp hmem with ⟨m, _, hm⟩
      cases m with
      | error e => cases hm
      | ok raw =>
        exact attemptClassify_docType_mem hm

/-- C10 (amended) — provided the backend is initialized, every
verification request whose document type is case-insensitively
`combined` or `all` returns, for every candidate-behavior list alike
(so without consulting any model candidate), the fixed record with the
backend-orchestration error message, empty discrepancy and
field-confidence lists, and overall confidence 0.0. -/
theorem claim_C10 (document_type : String) (models : List (Except String RawResponse))
    (h : (strToLower document_type == "combined"
      || strToLower document_type == "all") = true) :
    verify_document_with_gemini true document_type models =
      { discrepancies := [], field_confidences := [],
        overall_verification_confidence := 0, raw_llm_response := none,
        error_message := some ("Cross-document verification is orchestrated by the backend. "
          ++ "This path should not be directly called for combined checks.") } := by
  unfold verify_document_with_gemini
  simp only [Bool.true_eq_false, if_false, h, if_true]
  rfl

/-- Counterexample to C10 as stated: when the backend is uninitialized, a
`combined` request does not return the backend-orchestration message —
it returns the initialization error instead, so the claimed behavior
does not hold for every combined/all request. -/
theorem claim_C10_counterexample :
    (verify_document_with_gemini false "combined" []).error_message
      = some "Vertex AI client not initialized."
    ∧ (verify_document_with_gemini false "combined" []).error_message
      ≠ combinedVerificationResponse.error_message := by
  refine ⟨rfl, by decide⟩

/-- Witness for C10 at a concrete request: document type `Combined` (mixed
case) with a candidate list present. -/
theorem claim_C10_witness :
    verify_document_with_gemini true "Combined" [.error "network"] =
      { discrepancies := [], field_confidences := [],
        overall_verification_confidence := 0, raw_llm_response := none,
        error_message := some ("Cross-document verification is orchestrated by the backend. "
          ++ "This path should not be directly called for combined checks.") } :=
  claim_C10 "Combined" [.error "network"] rfl

/-- C2 (amended) — classify-and-verify runs in identifier-extraction-only
mode exactly when `referenceData` has exactly one key and that key is
the job identifier `jobNo`; a single-key payload under any other key
(such as `jobId`) triggers full verification mode, so the branch
depends on the key's name and not only on the key count. -/
theorem claim_C2 :
    (∀ erpKeys : List String,
      isInitialClassification erpKeys = true ↔ erpKeys = ["jobNo"])
    ∧ (∀ (erpKeys : List String) (imgs : List Bool)
        (models : List (Except String RawResponse)), imgs.any id = true →
        classify_and_verify_with_gemini true erpKeys imgs models =
          cavLoop (isInitialClassification erpKeys) models) := by
  constructor
  · intro erpKeys
    unfold isInitialClassification
    constructor
    · intro h
      rw [Bool.and_eq_true] at h
      obtain ⟨hc, hl⟩ := h
      cases erpKeys with
      | nil => cases hl
      | cons k rest =>
        cases rest with
        | nil =>
          simp only [List.contains_cons, List.contains_nil, Bool.or_false,
            beq_iff_eq] at hc
          simp [hc]
        | cons _ _ => simp at hl
    · intro h
      subst h
      rfl
  · intro erpKeys imgs models himg
    unfold classify_and_verify_with_gemini
    simp [himg]

/-- Counterexample to C2 as stated: `["jobId"]` is a single-key
referenceData, yet the mode test is false — the operation runs in full
verification mode, because the code additionally requires the key to be
literally `jobNo`. -/
theorem claim_C2_counterexample :
    (["jobId"] : List String).length = 1
    ∧ isInitialClassification ["jobId"] = false
    ∧ isInitialClassification ["jobNo"] = true := ⟨rfl, rfl, rfl⟩

/-- Witness for C2 at a concrete request: with key `jobId` the branch
selects verification mode inside the service function. -/
theorem claim_C2_witness :
    classify_and_verify_with_gemini true ["jobId"] [true] [] =
      cavLoop (isInitialClassification ["jobId"]) [] :=
  claim_C2.2 ["jobId"] [true] [] rfl

theorem attemptCAVParsedInit_ok_error {raw : RawResponse} {v : JVal}
    {r : ClassifyAndVerifyResponse} (h : attemptCAVParsedInit raw v = .ok r) :
    r.error_message = none := by
  unfold attemptCAVParsedInit at h
  rcases bindOk h with ⟨results, _, h⟩
  cases h
  rfl

theorem attemptCAVParsedVerif_ok_error {raw : RawResponse} {v : JVal}
    {r : ClassifyAndVerifyResponse} (h : attemptCAVParsedVerif raw v = .ok r) :
    r.error_message = none := by
  unfold attemptCAVParsedVerif at h
  cases v with
  | obj fs =>
    rcases bindOk h with ⟨dt, _, h⟩
    rcases bindOk h with ⟨cc, _, h⟩
    rcases bindOk h with ⟨cr, _, h⟩
    rcases bindOk h with ⟨discsJ, _, h⟩
    rcases bindOk h with ⟨discs, _, h⟩
    rcases bindOk h with ⟨fcsJ, _, h⟩
    rcases bindOk h with ⟨fcs, _, h⟩
    rcases bindOk h with ⟨ovc, _, h⟩
    cases h
    rfl
  | null => exact Except.noConfusion h
  | jbool b => exact Except.noConfusion h
  | num q => exact Except.noConfusion h
  | str s => exact Except.noConfusion h
  | arr xs => exact Except.noConfusion h

theorem kwScanCAV2_cases (t : String) :
    kwScanCAV2 t = "SalesQuote" ∨ kwScanCAV2 t = "ProformaInvoice"
    ∨ kwScanCAV2 t = "JobConsumption" ∨ kwScanCAV2 t = "UNKNOWN" := by
  simp only [kwScanCAV2]
  split
  · exact Or.inl rfl
  · split
    · exact Or.inr (Or.inl rfl)
    · split
      · exact Or.inr (Or.inr (Or.inl rfl))
      · exact Or.inr (Or.inr (Or.inr rfl))

theorem validate_empty_fails {dt : String}
    (h : dt = "SalesQuote" ∨ dt = "ProformaInvoice" ∨ dt = "JobConsumption") :
    (validateExtractedIdentifiers dt []).1 = false := by
  rcases h with h | h | h <;> subst h <;> decide

theorem attemptCAVFallback_ok_error {isInit : Bool} {raw : RawResponse}
    {r : ClassifyAndVerifyResponse} (h : attemptCAVFallback isInit raw = .ok r) :
    (r.error_message.isSome = true ↔
      (isInit = true ∧ kwScanCAV2 raw.text ≠ "UNKNOWN")) := by
  unfold attemptCAVFallback at h
  cases isInit with
  | false =>
    rw [if_neg Bool.false_ne_true] at h
    cases h
    simp [cavBasicResponse]
  | true =>
    rw [if_pos rfl] at h
    rcases bindOk h with ⟨u, _, h⟩
    simp only [cavFallbackInitTail] at h
    rcases kwScanCAV2_cases raw.text with hc | hc | hc | hc
    · rw [hc] at h ⊢
      rw [if_pos (show ((("SalesQuote" : String) != "UNKNOWN") = true) from by decide),
          if_pos (show (validateExtractedIdentifiers "SalesQuote" []).1 = false
            from by decide)] at h
      revert h
      repeat' split
      all_goals intro h
      all_goals try exact Except.noConfusion h
      all_goals cases h
      all_goals simp [cavBasicResponse]
    · rw [hc] at h ⊢
      rw [if_pos (show ((("ProformaInvoice" : String) != "UNKNOWN") = true) from by decide),
          if_pos (show (validateExtractedIdentifiers "ProformaInvoice" []).1 = false
            from by decide)] at h
      revert h
      repeat' split
      all_goals intro h
      all_goals try exact Except.noConfusion h
      all_goals cases h
      all_goals simp [cavBasicResponse]
    · rw [hc] at h ⊢
      rw [if_pos (show ((("JobConsumption" : String) != "UNKNOWN") = true) from by decide),
          if_pos (show (validateExtractedIdentifiers "JobConsumption" []).1 = false
            from by decide)] at h
      revert h
      repeat' split
      all_goals intro h
      all_goals try exact Except.noConfusion h
      all_goals cases h
      all_goals simp [cavBasicResponse]
    · rw [hc] at h ⊢
      rw [if_neg (show ¬((("UNKNOWN" : String) != "UNKNOWN") = true) from by decide)] at h
      revert h
      repeat' split
      all_goals intro h
      all_goals try exact Except.noConfusion h
      all_goals cases h
      all_goals simp [cavBasicResponse]

theorem attemptCAV_ok_error {isInit : Bool} {raw : RawResponse}
    {r : ClassifyAndVerifyResponse} (h : attemptCAV isInit raw = .ok r) :
    (r.error_message.isSome = true ↔
      (cavParsed raw = none ∧ isInit = true ∧ kwScanCAV2 raw.text ≠ "UNKNOWN")) := by
  unfold attemptCAV at h
  cases hp : cavParsed raw with
  | some v =>
    rw [hp] at h
    have hnone : r.error_message = none := by
      cases isInit with
      | true => exact attemptCAVParsedInit_ok_error (by simpa using h)
      | false => exact attemptCAVParsedVerif_ok_error (by simpa using h)
    rw [hnone]
    simp [hp]
  | none =>
    rw [hp] at h
    have hch := attemptCAVFallback_ok_error h
    simp [hch]

/-- C1 (amended) — a final record's error field is non-null exactly when
the backend was uninitialized, or no supplied image decoded, or every
candidate attempt failed (transport error or processing exception), or
the first completed attempt fell back to raw-text recovery in
initial-classification mode with a recognized document type, whose
required identifiers then failed business validation.  (The last case is
the per-attempt characterization in the second conjunct: a completed
attempt carries an error exactly when it took the text fallback in
initial-classification mode with a keyword-recognized type.)  In
addition, the verification operation answers combined/all document
types with a non-null error without consulting any candidate. -/
theorem claim_C1 :
    (∀ (initialized : Bool) (erpKeys : List String) (imgs : List Bool)
        (models : List (Except String RawResponse)),
      ((classify_and_verify_with_gemini initialized erpKeys imgs models).error_message.isSome
          = true ↔
        (initialized = false ∨ imgs.any id = false ∨
          ((firstOk (cavAttempts (isInitialClassification erpKeys) models)).all
            (fun r => r.error_message.isSome)) = true)))
    ∧ (∀ (isInit : Bool) (raw : RawResponse) (r : ClassifyAndVerifyResponse),
        attemptCAV isInit raw = .ok r →
        (r.error_message.isSome = true ↔
          (cavParsed raw = none ∧ isInit = true ∧ kwScanCAV2 raw.text ≠ "UNKNOWN")))
    ∧ (∀ (document_type : String) (models : List (Except String RawResponse)),
        (strToLower document_type == "combined"
          || strToLower document_type == "all") = true →
        (verify_document_with_gemini true document_type models).error_message.isSome
          = true) := by
  refine ⟨?_, fun isInit raw r h => attemptCAV_ok_error h, ?_⟩
  · intro initialized erpKeys imgs models
    unfold classify_and_verify_with_gemini
    cases initialized with
    | false => simp [cavFailureResponse]
    | true =>
      simp only [Bool.true_eq_false, if_false]
      cases himg : imgs.any id with
      | false => simp [himg, cavFailureResponse]
      | true =>
        simp only [himg, Bool.true_eq_false, if_false]
        unfold cavLoop
        cases horch : orchestrate (cavAttempts (isInitialClassification erpKeys) models)
            none with
        | inl resp =>
          rw [orchestrate_eq_inl_iff] at horch
          simp [horch]
        | inr last =>
          have hfo : firstOk (cavAttempts (isInitialClassification erpKeys) models)
              = none := by
            cases hfo : firstOk (cavAttempts (isInitialClassification erpKeys) models) with
            | some r =>
              rw [← orchestrate_eq_inl_iff _ none r] at hfo
              rw [hfo] at horch
              exact Sum.noConfusion horch
            | none => rfl
          simp [cavFailureResponse, hfo]
  · intro document_type models h
    unfold verify_document_with_gemini
    simp [h, combinedVerificationResponse]

/-- Counterexample to C1 as stated: an uninitialized backend alone makes
the error field non-null — here the single candidate's call succeeded
and its response would have been processed without any validation
rejection, yet the returned record carries an error. -/
theorem claim_C1_counterexample :
    (classify_and_verify_with_gemini false ["jobNo"] [true] [.ok emptyObjRaw]).error_message
      = some "Vertex AI client not initialized."
    ∧ attemptCAV (isInitialClassification ["jobNo"]) emptyObjRaw =
        .ok { document_type := "UNKNOWN", classification_confidence := 9/10,
              classification_reasoning := some "Documents identified: UNKNOWN with : ",
              discrepancies := [], field_confidences := [],
              overall_verification_confidence := 0,
              raw_llm_response := some "x", error_message := none } :=
  ⟨rfl, rfl⟩

/-- Witness for C1 at a concrete request: an `ALL` verification request
with one failing candidate reports through the error field. -/
theorem claim_C1_witness :
    (verify_document_with_gemini true "ALL" [.error "network"]).error_message.isSome
      = true :=
  claim_C1.2.2 "ALL" [.error "network"] rfl

/-- C8 — each of the four service operations is a total function of its
request and of arbitrary candidate behavior (any candidate may raise at
the transport or at any processing step), always returning a well-typed
response record — no exception propagates past the candidate loop — and
the failure modes are reported through the error-message field: an
uninitialized backend and an exhausted candidate list (no attempt
completed) both populate it, in every operation.  Confirms the claim. -/
theorem claim_C8 (document_type : String) (erpKeys : List String) (imgs : List Bool)
    (models : List (Except String RawResponse)) :
    ((extract_identifiers_from_gemini false document_type models).error_message.isSome = true)
    ∧ ((classify_document_with_gemini false models).error_message.isSome = true)
    ∧ ((verify_document_with_gemini false document_type models).error_message.isSome = true)
    ∧ ((classify_and_verify_with_gemini false erpKeys imgs models).error_message.isSome = true)
    ∧ (firstOk (extractAttempts document_type models) = none →
        (extract_identifiers_from_gemini true document_type models).error_message.isSome = true)
    ∧ (firstOk (classifyAttempts models) = none →
        (classify_document_with_gemini true models).error_message.isSome = true)
    ∧ (firstOk (verifyAttempts models) = none →
        (verify_document_with_gemini true document_type models).error_message.isSome = true)
    ∧ (imgs.any id = false →
        (classify_and_verify_with_gemini true erpKeys imgs models).error_message.isSome = true)
    ∧ (firstOk (cavAttempts (isInitialClassification erpKeys) models) = none →
        imgs.any id = true →
        (classify_and_verify_with_gemini true erpKeys imgs models).error_message.isSome
          = true) := by
  refine ⟨rfl, rfl, rfl, rfl, ?_, ?_, ?_, ?_, ?_⟩
  · intro hfo
    unfold extract_identifiers_from_gemini
    rcases orchestrate_inr_of_firstOk_none _ none hfo with ⟨m, hm⟩
    simp [hm]
  · intro hfo
    unfold classify_document_with_gemini
    rcases orchestrate_inr_of_firstOk_none _ none hfo with ⟨m, hm⟩
    simp [hm]
  · intro hfo
    unfold verify_document_with_gemini
    simp only [Bool.true_eq_false, if_false]
    cases hdt : (strToLower document_type == "combined"
        || strToLower document_type == "all") with
    | true => simp [hdt, combinedVerificationResponse]
    | false =>
      rcases orchestrate_inr_of_firstOk_none _ none hfo with ⟨m, hm⟩
      simp [hdt, hm]
  · intro himg
    unfold classify_and_verify_with_gemini
    simp [himg, cavFailureResponse]
  · intro hfo himg
    unfold classify_and_verify_with_gemini cavLoop
    rcases orchestrate_inr_of_firstOk_none _ none hfo with ⟨m, hm⟩
    simp [himg, hm, cavFailureResponse]

/-- Witness for C8 at a concrete request: with the single candidate's
transport failing, extraction, classification, verification and
classify-and-verify each return a record whose error field is set. -/
theorem claim_C8_witness :
    (extract_identifiers_from_gemini true "salesquote" [.error "network down"]).error_message.isSome = true
    ∧ (classify_document_with_gemini true [.error "network down"]).error_message.isSome = true
    ∧ (verify_document_with_gemini true "salesquote" [.error "network down"]).error_message.isSome = true
    ∧ (classify_and_verify_with_gemini true ["jobNo"] [true]
        [.error "network down"]).error_message.isSome = true := by
  have h := claim_C8 "salesquote" ["jobNo"] [true] [.error "network down"]
  exact ⟨h.2.2.2.2.1 rfl, h.2.2.2.2.2.1 rfl, h.2.2.2.2.2.2.1 rfl,
    h.2.2.2.2.2.2.2.2 rfl rfl⟩

end GeminiSvc
